import Mathlib

/-!
Verification of the Cricket Tracker match service (`match-service.js`).

The service's numbers are modelled as exact rationals (`ℚ`), JavaScript
`Date` values as milliseconds since the epoch, and the Firestore document
store as an explicit in-memory state threaded through each operation.
Store faults that the claims talk about (a failed `getDocs` inside
`checkDuplicate`, and a failure of `updatePlayerStats` after a record
write) are modelled by explicit fault flags.
-/

namespace CricketTracker

/-- A JavaScript `Date`: milliseconds since the Unix epoch. -/
structure JSDate where
  ms : Int
deriving DecidableEq

/-- `date.setHours(0, 0, 0, 0)`: truncate to midnight of the calendar day
(the model works in a fixed timezone, so this is flooring to a multiple of
86400000 ms). -/
def JSDate.atMidnight (d : JSDate) : JSDate :=
  ⟨86400000 * (d.ms.fdiv 86400000)⟩

/-- The `toDateString()` comparison performed after both sides were set to
midnight: two dates name the same calendar day iff their midnights agree. -/
def sameDay (a b : JSDate) : Bool :=
  a.atMidnight == b.atMidnight

/-- The match payload handed to `addMatch`/`updateMatch`.  The six numeric
fields are optional: `js` callers may omit them, and the service defends
with `x || 0`. -/
structure MatchData where
  matchDate : JSDate
  opponent : String
  runsScored : Option ℚ
  ballsFaced : Option ℚ
  wicketsTaken : Option ℚ
  oversBowled : Option ℚ
  runsConceded : Option ℚ
  catches : Option ℚ
deriving DecidableEq

/-- `v || 0`: an absent/null field contributes `0`.  (JavaScript also maps
a literal `0` to `0`, which coincides.) -/
def orZero : Option ℚ → ℚ
  | some x => x
  | none => 0

/-- A persisted document of the `matches` collection.  Numeric fields are
kept optional so that the aggregator's own `x || 0` defence is visible;
documents written by this service always carry `some` values. -/
structure MatchDoc where
  id : Nat
  matchDate : JSDate
  opponent : String
  runsScored : Option ℚ
  ballsFaced : Option ℚ
  wicketsTaken : Option ℚ
  oversBowled : Option ℚ
  runsConceded : Option ℚ
  catches : Option ℚ
deriving DecidableEq

/-- The document the write paths build from the payload: every numeric
field passes through `|| 0` (`matchDoc` in `addMatch`, `updateData` in
`updateMatch`). -/
def toDoc (id : Nat) (d : MatchData) : MatchDoc :=
  { id := id
    matchDate := d.matchDate
    opponent := d.opponent
    runsScored := some (orZero d.runsScored)
    ballsFaced := some (orZero d.ballsFaced)
    wicketsTaken := some (orZero d.wicketsTaken)
    oversBowled := some (orZero d.oversBowled)
    runsConceded := some (orZero d.runsConceded)
    catches := some (orZero d.catches) }

/-- The `playerStats` snapshot document written by `updatePlayerStats`. -/
structure PlayerStats where
  totalMatches : Nat
  totalRuns : ℚ
  totalBallsFaced : ℚ
  totalWickets : ℚ
  totalOversBowled : ℚ
  totalRunsConceded : ℚ
  totalCatches : ℚ
  battingAverage : ℚ
  strikeRate : ℚ
  bowlingAverage : ℚ
  economyRate : ℚ
deriving DecidableEq

/-- The snapshot of the zero-records branch of `updatePlayerStats`. -/
def zeroStats : PlayerStats :=
  { totalMatches := 0, totalRuns := 0, totalBallsFaced := 0, totalWickets := 0,
    totalOversBowled := 0, totalRunsConceded := 0, totalCatches := 0,
    battingAverage := 0, strikeRate := 0, bowlingAverage := 0, economyRate := 0 }

/-- `parseFloat(x.toFixed(2))`: round to 2 decimal places.  ECMAScript
`toFixed` picks the integer `n` minimising `|n / 100 - x|` and on a tie
the larger `n`, i.e. round half up. -/
def toFixed2 (q : ℚ) : ℚ :=
  ((⌊q * 100 + 1 / 2⌋ : ℤ) : ℚ) / 100

/-- The running-total loop `matches.forEach(m => acc += f(m))`. -/
def sumBy (f : MatchDoc → ℚ) (rs : List MatchDoc) : ℚ :=
  rs.foldl (fun acc r => acc + f r) 0

def totalRuns (rs : List MatchDoc) : ℚ := sumBy (fun r => orZero r.runsScored) rs

def totalBallsFaced (rs : List MatchDoc) : ℚ := sumBy (fun r => orZero r.ballsFaced) rs

def totalWickets (rs : List MatchDoc) : ℚ := sumBy (fun r => orZero r.wicketsTaken) rs

def totalOversBowled (rs : List MatchDoc) : ℚ := sumBy (fun r => orZero r.oversBowled) rs

def totalRunsConceded (rs : List MatchDoc) : ℚ := sumBy (fun r => orZero r.runsConceded) rs

def totalCatches (rs : List MatchDoc) : ℚ := sumBy (fun r => orZero r.catches) rs

/-- `matchesWithRuns`: count of records with `match.runsScored > 0`
(`undefined > 0` is false in JavaScript, as is `0 > 0`). -/
def matchesWithRuns (rs : List MatchDoc) : Nat :=
  rs.countP (fun r => decide (0 < orZero r.runsScored))

/-- `matchesWithRuns > 0 ? totalRuns / matchesWithRuns : 0`. -/
def rawBattingAverage (rs : List MatchDoc) : ℚ :=
  if 0 < matchesWithRuns rs then totalRuns rs / (matchesWithRuns rs : ℚ) else 0

/-- `totalBallsFaced > 0 ? (totalRuns / totalBallsFaced) * 100 : 0`. -/
def rawStrikeRate (rs : List MatchDoc) : ℚ :=
  if 0 < totalBallsFaced rs then totalRuns rs / totalBallsFaced rs * 100 else 0

/-- `totalWickets > 0 ? totalRunsConceded / totalWickets : 0`. -/
def rawBowlingAverage (rs : List MatchDoc) : ℚ :=
  if 0 < totalWickets rs then totalRunsConceded rs / totalWickets rs else 0

/-- `totalOversBowled > 0 ? totalRunsConceded / totalOversBowled : 0`. -/
def rawEconomyRate (rs : List MatchDoc) : ℚ :=
  if 0 < totalOversBowled rs then totalRunsConceded rs / totalOversBowled rs else 0

/-- The stats document `updatePlayerStats` writes for a fetched record
list: the zero snapshot when `matches.length === 0`, otherwise the sums
and the four `parseFloat(x.toFixed(2))`-rounded metrics. -/
def statsDocFor (rs : List MatchDoc) : PlayerStats :=
  if rs.length = 0 then zeroStats
  else
    { totalMatches := rs.length
      totalRuns := totalRuns rs
      totalBallsFaced := totalBallsFaced rs
      totalWickets := totalWickets rs
      totalOversBowled := totalOversBowled rs
      totalRunsConceded := totalRunsConceded rs
      totalCatches := totalCatches rs
      battingAverage := toFixed2 (rawBattingAverage rs)
      strikeRate := toFixed2 (rawStrikeRate rs)
      bowlingAverage := toFixed2 (rawBowlingAverage rs)
      economyRate := toFixed2 (rawEconomyRate rs) }

/-- The Firestore state seen by the service: the `matches` collection, the
singleton `playerStats` document, and the id generator. -/
structure Store where
  docs : List MatchDoc
  stats : Option PlayerStats
  nextId : Nat
deriving DecidableEq

/-- `getAllMatches` sorts in memory, newest first
(`matches.sort((a, b) => b.matchDate - a.matchDate)`). -/
def newerFirst (a b : MatchDoc) : Prop :=
  b.matchDate.ms ≤ a.matchDate.ms

instance : DecidableRel newerFirst :=
  fun a b => inferInstanceAs (Decidable (b.matchDate.ms ≤ a.matchDate.ms))

def getAllMatches (s : Store) : List MatchDoc :=
  List.insertionSort newerFirst s.docs

/-- `updatePlayerStats`: re-read all matches and replace the singleton
stats document with the freshly computed snapshot. -/
def updatePlayerStats (s : Store) : Store :=
  { s with stats := some (statsDocFor (getAllMatches s)) }

/-- `String.prototype.toLowerCase()` as used for opponent comparison: the
simple per-character lowercase fold. -/
def toLowerCase (s : String) : String :=
  String.mk (s.data.map Char.toLower)

/-- `if (excludeId && docSnap.id === excludeId) continue;` -/
def notExcluded : Option Nat → Nat → Bool
  | some e, id => id != e
  | none, _ => true

/-- The in-memory duplicate scan of `checkDuplicate`: some document,
other than `excludeId`, matches the candidate opponent case-insensitively
and falls on the same calendar day. -/
def checkDuplicate (docs : List MatchDoc) (matchDate : JSDate) (opponent : String)
    (excludeId : Option Nat) : Bool :=
  docs.any fun docSnap =>
    notExcluded excludeId docSnap.id &&
    (toLowerCase docSnap.opponent == toLowerCase opponent) &&
    sameDay docSnap.matchDate matchDate

/-- `checkDuplicate` including its catch-all: if the `getDocs` read throws,
the error is logged and the function returns `false` (no duplicate). -/
def checkDuplicateRun (readFails : Bool) (docs : List MatchDoc) (matchDate : JSDate)
    (opponent : String) (excludeId : Option Nat) : Bool :=
  if readFails then false
  else checkDuplicate docs matchDate opponent excludeId

/-- Store faults exercised by the error-handling claims. -/
structure Faults where
  dupReadFails : Bool
  statsFails : Bool
deriving DecidableEq

def noFaults : Faults := ⟨false, false⟩

/-- The error taxonomy of the write paths. -/
inductive CricketError where
  | duplicate (opponent : String)
  | notFound
  | storeError
deriving DecidableEq

/-- `addMatch`: duplicate check, persist the `|| 0`-defaulted document,
then recompute stats.  Any thrown error is re-thrown by the catch-all. -/
def addMatch (f : Faults) (s : Store) (matchData : MatchData) :
    Except CricketError Nat × Store :=
  if checkDuplicateRun f.dupReadFails s.docs matchData.matchDate matchData.opponent none = true then
    (.error (.duplicate matchData.opponent), s)
  else
    let matchDoc := toDoc s.nextId matchData
    let s1 : Store := { docs := s.docs ++ [matchDoc], stats := s.stats, nextId := s.nextId + 1 }
    if f.statsFails then (.error .storeError, s1)
    else (.ok matchDoc.id, updatePlayerStats s1)

/-- The whole-record replacement `updateMatch` performs (id preserved,
all payload fields written through `|| 0`). -/
def applyUpdate (r : MatchDoc) (d : MatchData) : MatchDoc :=
  toDoc r.id d

/-- `updateMatch`: look up the record, run the duplicate check only when
the date (`getTime()` comparison) or the opponent (exact string
comparison) changed, then write and recompute stats. -/
def updateMatch (f : Faults) (s : Store) (matchId : Nat) (matchData : MatchData) :
    Except CricketError Unit × Store :=
  match s.docs.find? (fun r => r.id == matchId) with
  | none => (.error .notFound, s)
  | some existingMatch =>
    if (matchData.matchDate.ms ≠ existingMatch.matchDate.ms ∨
        matchData.opponent ≠ existingMatch.opponent) ∧
       checkDuplicateRun f.dupReadFails s.docs matchData.matchDate matchData.opponent
         (some matchId) = true then
      (.error (.duplicate matchData.opponent), s)
    else
      let s1 : Store :=
        { s with docs := s.docs.map (fun r => if r.id = matchId then applyUpdate r matchData else r) }
      if f.statsFails then (.error .storeError, s1)
      else (.ok (), updatePlayerStats s1)

/-- `deleteMatch`: `deleteDoc` (a no-op when no such document exists —
Firestore raises no error for a missing id), then recompute stats. -/
def deleteMatch (f : Faults) (s : Store) (matchId : Nat) :
    Except CricketError Unit × Store :=
  let s1 : Store := { s with docs := s.docs.filter (fun r => r.id != matchId) }
  if f.statsFails then (.error .storeError, s1)
  else (.ok (), updatePlayerStats s1)

/-- The collision predicate of the spec: case-insensitive opponent match
and same calendar day. -/
def collidesWith (docSnap : MatchDoc) (matchDate : JSDate) (opponent : String) : Prop :=
  toLowerCase docSnap.opponent = toLowerCase opponent ∧
  docSnap.matchDate.atMidnight = matchDate.atMidnight

instance (docSnap : MatchDoc) (matchDate : JSDate) (opponent : String) :
    Decidable (collidesWith docSnap matchDate opponent) :=
  inferInstanceAs (Decidable (_ ∧ _))

/-! ## General lemmas about the aggregator -/

theorem sumBy_eq_sum (f : MatchDoc → ℚ) (rs : List MatchDoc) :
    sumBy f rs = (rs.map f).sum := by
  have h : ∀ a : ℚ, rs.foldl (fun acc r => acc + f r) a = a + (rs.map f).sum := by
    induction rs with
    | nil => intro a; simp
    | cons r rs ih => intro a; simp [ih, add_assoc]
  simpa using h 0

theorem sumBy_perm (f : MatchDoc → ℚ) {rs₁ rs₂ : List MatchDoc} (h : rs₁.Perm rs₂) :
    sumBy f rs₁ = sumBy f rs₂ := by
  rw [sumBy_eq_sum, sumBy_eq_sum]
  exact (h.map f).sum_eq

theorem statsDocFor_congr {rs₁ rs₂ : List MatchDoc}
    (hlen : rs₁.length = rs₂.length)
    (hmw : matchesWithRuns rs₁ = matchesWithRuns rs₂)
    (h1 : totalRuns rs₁ = totalRuns rs₂)
    (h2 : totalBallsFaced rs₁ = totalBallsFaced rs₂)
    (h3 : totalWickets rs₁ = totalWickets rs₂)
    (h4 : totalOversBowled rs₁ = totalOversBowled rs₂)
    (h5 : totalRunsConceded rs₁ = totalRunsConceded rs₂)
    (h6 : totalCatches rs₁ = totalCatches rs₂) :
    statsDocFor rs₁ = statsDocFor rs₂ := by
  unfold statsDocFor rawBattingAverage rawStrikeRate rawBowlingAverage rawEconomyRate
  rw [hlen, hmw, h1, h2, h3, h4, h5, h6]

theorem statsDocFor_perm {rs₁ rs₂ : List MatchDoc} (h : rs₁.Perm rs₂) :
    statsDocFor rs₁ = statsDocFor rs₂ :=
  statsDocFor_congr h.length_eq (h.countP_eq _)
    (sumBy_perm _ h) (sumBy_perm _ h) (sumBy_perm _ h)
    (sumBy_perm _ h) (sumBy_perm _ h) (sumBy_perm _ h)

theorem toFixed2_zero : toFixed2 0 = 0 := by
  have h : (⌊(0 : ℚ) * 100 + 1 / 2⌋ : ℤ) = 0 := by
    rw [Int.floor_eq_iff]; norm_num
  rw [toFixed2, h]
  norm_num

/-! ## Concrete inputs for the end-to-end scenario (claim C1) -/

def c1doc1 : MatchDoc := ⟨0, ⟨0⟩, "A", some 50, some 40, some 0, some 0, some 0, some 1⟩

def c1doc2 : MatchDoc := ⟨1, ⟨86400000⟩, "B", some 0, some 0, some 3, some 4, some 20, some 0⟩

def c1doc3 : MatchDoc := ⟨2, ⟨172800000⟩, "C", some 30, some 20, some 1, some (23/10), some 15, some 2⟩

def c1store : Store := ⟨[c1doc1, c1doc2, c1doc3], none, 3⟩

/-- Claim C1: for the record set with the three records
(runs 50 / balls 40 / wkts 0 / overs 0 / conceded 0 / catches 1),
(0 / 0 / 3 / 4.0 / 20 / 0) and (30 / 20 / 1 / 2.3 / 15 / 2), the
aggregator `updatePlayerStats` produces the snapshot totalMatches 3,
totalRuns 80, totalBallsFaced 60, totalWickets 4, totalOversBowled 6.3,
totalRunsConceded 35, totalCatches 3, battingAverage 40.00,
strikeRate 133.33, bowlingAverage 8.75, economyRate 5.56. -/
theorem end_to_end_scenario : (updatePlayerStats c1store).stats = some
    { totalMatches := 3, totalRuns := 80, totalBallsFaced := 60, totalWickets := 4,
      totalOversBowled := 63/10, totalRunsConceded := 35, totalCatches := 3,
      battingAverage := 40, strikeRate := 13333/100, bowlingAverage := 35/4,
      economyRate := 139/25 } := by
  have hba : (⌊(40 : ℚ) * 100 + 1 / 2⌋ : ℤ) = 4000 := by
    rw [Int.floor_eq_iff]; norm_num
  have hsr : (⌊(80 : ℚ) / 60 * 100 * 100 + 1 / 2⌋ : ℤ) = 13333 := by
    rw [Int.floor_eq_iff]; norm_num
  have hbo : (⌊(35 : ℚ) / 4 * 100 + 1 / 2⌋ : ℤ) = 875 := by
    rw [Int.floor_eq_iff]; norm_num
  have her : (⌊(35 : ℚ) / (63 / 10) * 100 + 1 / 2⌋ : ℤ) = 556 := by
    rw [Int.floor_eq_iff]; norm_num
  norm_num [updatePlayerStats, getAllMatches, List.insertionSort, List.orderedInsert,
    newerFirst, c1store, c1doc1, c1doc2, c1doc3, statsDocFor, totalRuns, totalBallsFaced,
    totalWickets, totalOversBowled, totalRunsConceded, totalCatches, matchesWithRuns,
    sumBy, orZero, rawBattingAverage, rawStrikeRate, rawBowlingAverage, rawEconomyRate,
    toFixed2, List.countP, List.countP.go, hba, hsr, hbo, her]

/-- Claim C2: the zero-division guards.  For every record set: a zero
`totalBallsFaced` forces `strikeRate = 0`, zero `totalWickets` forces
`bowlingAverage = 0`, zero `totalOversBowled` forces `economyRate = 0`,
and if no record has `runsScored > 0` then `battingAverage = 0`; each
metric is exactly the number `0` (the model has no NaN/undefined, and the
computation is total). -/
theorem zero_division_guards (rs : List MatchDoc) :
    (totalBallsFaced rs = 0 → (statsDocFor rs).strikeRate = 0) ∧
    (totalWickets rs = 0 → (statsDocFor rs).bowlingAverage = 0) ∧
    (totalOversBowled rs = 0 → (statsDocFor rs).economyRate = 0) ∧
    ((∀ r ∈ rs, ¬ 0 < orZero r.runsScored) → (statsDocFor rs).battingAverage = 0) := by
  by_cases hlen : rs.length = 0
  · simp [statsDocFor, hlen, zeroStats]
  · refine ⟨fun h => ?_, fun h => ?_, fun h => ?_, fun h => ?_⟩
    · simp [statsDocFor, hlen, rawStrikeRate, h, toFixed2_zero]
    · simp [statsDocFor, hlen, rawBowlingAverage, h, toFixed2_zero]
    · simp [statsDocFor, hlen, rawEconomyRate, h, toFixed2_zero]
    · have hm : matchesWithRuns rs = 0 := by
        simp only [matchesWithRuns, List.countP_eq_zero, decide_eq_true_eq]
        exact h
      simp [statsDocFor, hlen, rawBattingAverage, hm, toFixed2_zero]

def c2doc : MatchDoc := ⟨0, ⟨0⟩, "Z", some 0, some 0, some 0, some 0, some 0, some 0⟩

/-- Witness for C2 at the one-record set whose record is all zeros. -/
theorem zero_division_guards_witness :
    (statsDocFor [c2doc]).strikeRate = 0 ∧ (statsDocFor [c2doc]).bowlingAverage = 0 ∧
    (statsDocFor [c2doc]).economyRate = 0 ∧ (statsDocFor [c2doc]).battingAverage = 0 := by
  obtain ⟨h1, h2, h3, h4⟩ := zero_division_guards [c2doc]
  refine ⟨h1 ?_, h2 ?_, h3 ?_, h4 ?_⟩
  · norm_num [totalBallsFaced, sumBy, c2doc, orZero]
  · norm_num [totalWickets, sumBy, c2doc, orZero]
  · norm_num [totalOversBowled, sumBy, c2doc, orZero]
  · intro r hr
    simp only [List.mem_singleton] at hr
    subst hr
    norm_num [c2doc, orZero]

/-- Claim C5: aggregation is a pure function of the record multiset.  Any
two permutations of a record list yield the same stats document, and any
two stores whose `matches` collections are permutations of each other
yield identical persisted snapshots under `updatePlayerStats`. -/
theorem aggregation_perm_invariant (rs₁ rs₂ : List MatchDoc) (s₁ s₂ : Store)
    (hrs : rs₁.Perm rs₂) (hs : s₁.docs.Perm s₂.docs) :
    statsDocFor rs₁ = statsDocFor rs₂ ∧
    (updatePlayerStats s₁).stats = (updatePlayerStats s₂).stats := by
  refine ⟨statsDocFor_perm hrs, ?_⟩
  show some (statsDocFor (getAllMatches s₁)) = some (statsDocFor (getAllMatches s₂))
  exact congrArg some (statsDocFor_perm
    (((List.perm_insertionSort newerFirst s₁.docs).trans hs).trans
      (List.perm_insertionSort newerFirst s₂.docs).symm))

def c5docA : MatchDoc := ⟨0, ⟨0⟩, "A", some 10, some 5, none, none, none, some 1⟩

def c5docB : MatchDoc := ⟨1, ⟨86400000⟩, "B", some 7, some 14, some 2, some (31/10), some 12, none⟩

/-- Witness for C5 at a two-record list and its swap. -/
theorem aggregation_perm_invariant_witness :
    statsDocFor [c5docA, c5docB] = statsDocFor [c5docB, c5docA] ∧
    (updatePlayerStats ⟨[c5docA, c5docB], none, 2⟩).stats =
      (updatePlayerStats ⟨[c5docB, c5docA], none, 2⟩).stats :=
  aggregation_perm_invariant _ _ _ _
    (List.Perm.swap c5docB c5docA []) (List.Perm.swap c5docB c5docA [])

/-- Claim C6: for the empty record set the aggregator produces and
persists an explicit snapshot in which every total and every derived
metric is `0`. -/
theorem empty_record_set_zero_snapshot (s : Store) (h : s.docs = []) :
    (updatePlayerStats s).stats = some
      { totalMatches := 0, totalRuns := 0, totalBallsFaced := 0, totalWickets := 0,
        totalOversBowled := 0, totalRunsConceded := 0, totalCatches := 0,
        battingAverage := 0, strikeRate := 0, bowlingAverage := 0, economyRate := 0 } := by
  simp [updatePlayerStats, getAllMatches, h, List.insertionSort, statsDocFor, zeroStats]

/-- Witness for C6 at the empty store. -/
theorem empty_record_set_zero_snapshot_witness :
    (updatePlayerStats ⟨[], none, 0⟩).stats = some
      { totalMatches := 0, totalRuns := 0, totalBallsFaced := 0, totalWickets := 0,
        totalOversBowled := 0, totalRunsConceded := 0, totalCatches := 0,
        battingAverage := 0, strikeRate := 0, bowlingAverage := 0, economyRate := 0 } :=
  empty_record_set_zero_snapshot ⟨[], none, 0⟩ rfl

/-- Replace every absent numeric field of a stored document by an
explicit `0`. -/
def fillDoc (r : MatchDoc) : MatchDoc :=
  { r with
    runsScored := some (orZero r.runsScored)
    ballsFaced := some (orZero r.ballsFaced)
    wicketsTaken := some (orZero r.wicketsTaken)
    oversBowled := some (orZero r.oversBowled)
    runsConceded := some (orZero r.runsConceded)
    catches := some (orZero r.catches) }

/-- Replace every absent numeric field of a payload by an explicit `0`. -/
def fillData (d : MatchData) : MatchData :=
  { d with
    runsScored := some (orZero d.runsScored)
    ballsFaced := some (orZero d.ballsFaced)
    wicketsTaken := some (orZero d.wicketsTaken)
    oversBowled := some (orZero d.oversBowled)
    runsConceded := some (orZero d.runsConceded)
    catches := some (orZero d.catches) }

/-- Claim C10: absent/null numeric fields contribute exactly `0`: the
aggregator computes the same snapshot whether absent fields stay absent
or are written as explicit zeros, and the document built by the add and
update write paths is likewise unchanged by zero-filling the payload. -/
theorem absent_fields_contribute_zero (rs : List MatchDoc) (d : MatchData) (id : Nat) :
    statsDocFor (rs.map fillDoc) = statsDocFor rs ∧ toDoc id (fillData d) = toDoc id d := by
  constructor
  · apply statsDocFor_congr
    · exact List.length_map rs fillDoc
    · unfold matchesWithRuns
      rw [List.countP_map]
      rfl
    · simp only [totalRuns, sumBy_eq_sum, List.map_map]
      rfl
    · simp only [totalBallsFaced, sumBy_eq_sum, List.map_map]
      rfl
    · simp only [totalWickets, sumBy_eq_sum, List.map_map]
      rfl
    · simp only [totalOversBowled, sumBy_eq_sum, List.map_map]
      rfl
    · simp only [totalRunsConceded, sumBy_eq_sum, List.map_map]
      rfl
    · simp only [totalCatches, sumBy_eq_sum, List.map_map]
      rfl
  · rfl

/-! ## Rounding of the derived metrics (claim C8) -/

/-- Round-half-away-from-zero to 2 decimal places, as the spec words it. -/
def roundHalfAwayFromZero2 (q : ℚ) : ℚ :=
  if 0 ≤ q then ((⌊q * 100 + 1 / 2⌋ : ℤ) : ℚ) / 100
  else -(((⌊-q * 100 + 1 / 2⌋ : ℤ) : ℚ) / 100)

/-- The data model's range constraint: every numeric field non-negative. -/
def docNonneg (r : MatchDoc) : Prop :=
  0 ≤ orZero r.runsScored ∧ 0 ≤ orZero r.ballsFaced ∧ 0 ≤ orZero r.wicketsTaken ∧
  0 ≤ orZero r.oversBowled ∧ 0 ≤ orZero r.runsConceded ∧ 0 ≤ orZero r.catches

instance (r : MatchDoc) : Decidable (docNonneg r) :=
  inferInstanceAs (Decidable (_ ∧ _))

theorem sumBy_nonneg {f : MatchDoc → ℚ} {rs : List MatchDoc} (h : ∀ r ∈ rs, 0 ≤ f r) :
    0 ≤ sumBy f rs := by
  rw [sumBy_eq_sum]
  refine List.sum_nonneg ?_
  intro x hx
  obtain ⟨r, hr, rfl⟩ := List.mem_map.1 hx
  exact h r hr

theorem rawBattingAverage_nonneg {rs : List MatchDoc} (h : ∀ r ∈ rs, docNonneg r) :
    0 ≤ rawBattingAverage rs := by
  rw [rawBattingAverage]
  split
  · exact div_nonneg (sumBy_nonneg fun r hr => (h r hr).1) (Nat.cast_nonneg _)
  · exact le_refl 0

theorem rawStrikeRate_nonneg {rs : List MatchDoc} (h : ∀ r ∈ rs, docNonneg r) :
    0 ≤ rawStrikeRate rs := by
  rw [rawStrikeRate]
  split
  · refine mul_nonneg (div_nonneg (sumBy_nonneg fun r hr => (h r hr).1)
      (sumBy_nonneg fun r hr => (h r hr).2.1)) ?_
    norm_num
  · exact le_refl 0

theorem rawBowlingAverage_nonneg {rs : List MatchDoc} (h : ∀ r ∈ rs, docNonneg r) :
    0 ≤ rawBowlingAverage rs := by
  rw [rawBowlingAverage]
  split
  · exact div_nonneg (sumBy_nonneg fun r hr => (h r hr).2.2.2.2.1)
      (sumBy_nonneg fun r hr => (h r hr).2.2.1)
  · exact le_refl 0

theorem rawEconomyRate_nonneg {rs : List MatchDoc} (h : ∀ r ∈ rs, docNonneg r) :
    0 ≤ rawEconomyRate rs := by
  rw [rawEconomyRate]
  split
  · exact div_nonneg (sumBy_nonneg fun r hr => (h r hr).2.2.2.2.1)
      (sumBy_nonneg fun r hr => (h r hr).2.2.2.1)
  · exact le_refl 0

theorem toFixed2_eq_roundAway {q : ℚ} (h : 0 ≤ q) :
    toFixed2 q = roundHalfAwayFromZero2 q := by
  rw [roundHalfAwayFromZero2, if_pos h, toFixed2]

theorem toFixed2_mul_hundred (q : ℚ) :
    toFixed2 q * 100 = ((⌊q * 100 + 1 / 2⌋ : ℤ) : ℚ) := by
  rw [toFixed2]
  exact div_mul_cancel₀ _ (by norm_num)

theorem statsDocFor_battingAverage (rs : List MatchDoc) :
    (statsDocFor rs).battingAverage = toFixed2 (rawBattingAverage rs) := by
  by_cases hlen : rs.length = 0
  · have hnil : rs = [] := List.length_eq_zero.1 hlen
    subst hnil
    simp [statsDocFor, zeroStats, rawBattingAverage, matchesWithRuns, toFixed2_zero]
  · simp [statsDocFor, hlen]

theorem statsDocFor_strikeRate (rs : List MatchDoc) :
    (statsDocFor rs).strikeRate = toFixed2 (rawStrikeRate rs) := by
  by_cases hlen : rs.length = 0
  · have hnil : rs = [] := List.length_eq_zero.1 hlen
    subst hnil
    simp [statsDocFor, zeroStats, rawStrikeRate, totalBallsFaced, sumBy, toFixed2_zero]
  · simp [statsDocFor, hlen]

theorem statsDocFor_bowlingAverage (rs : List MatchDoc) :
    (statsDocFor rs).bowlingAverage = toFixed2 (rawBowlingAverage rs) := by
  by_cases hlen : rs.length = 0
  · have hnil : rs = [] := List.length_eq_zero.1 hlen
    subst hnil
    simp [statsDocFor, zeroStats, rawBowlingAverage, totalWickets, sumBy, toFixed2_zero]
  · simp [statsDocFor, hlen]

theorem statsDocFor_economyRate (rs : List MatchDoc) :
    (statsDocFor rs).economyRate = toFixed2 (rawEconomyRate rs) := by
  by_cases hlen : rs.length = 0
  · have hnil : rs = [] := List.length_eq_zero.1 hlen
    subst hnil
    simp [statsDocFor, zeroStats, rawEconomyRate, totalOversBowled, sumBy, toFixed2_zero]
  · simp [statsDocFor, hlen]

/-- Claim C8: for any record set with in-range (non-negative) fields,
each of the four stored derived metrics equals the corresponding exact
ratio rounded to 2 decimal places with round-half-away-from-zero, and is
a numeric value with at most 2 decimal places (100 times it is an
integer). -/
theorem metrics_rounded_two_decimals (rs : List MatchDoc) (h : ∀ r ∈ rs, docNonneg r) :
    ((statsDocFor rs).battingAverage = roundHalfAwayFromZero2 (rawBattingAverage rs) ∧
      ∃ n : ℤ, (statsDocFor rs).battingAverage * 100 = (n : ℚ)) ∧
    ((statsDocFor rs).strikeRate = roundHalfAwayFromZero2 (rawStrikeRate rs) ∧
      ∃ n : ℤ, (statsDocFor rs).strikeRate * 100 = (n : ℚ)) ∧
    ((statsDocFor rs).bowlingAverage = roundHalfAwayFromZero2 (rawBowlingAverage rs) ∧
      ∃ n : ℤ, (statsDocFor rs).bowlingAverage * 100 = (n : ℚ)) ∧
    ((statsDocFor rs).economyRate = roundHalfAwayFromZero2 (rawEconomyRate rs) ∧
      ∃ n : ℤ, (statsDocFor rs).economyRate * 100 = (n : ℚ)) := by
  rw [statsDocFor_battingAverage, statsDocFor_strikeRate, statsDocFor_bowlingAverage,
    statsDocFor_economyRate]
  exact ⟨⟨toFixed2_eq_roundAway (rawBattingAverage_nonneg h), _, toFixed2_mul_hundred _⟩,
    ⟨toFixed2_eq_roundAway (rawStrikeRate_nonneg h), _, toFixed2_mul_hundred _⟩,
    ⟨toFixed2_eq_roundAway (rawBowlingAverage_nonneg h), _, toFixed2_mul_hundred _⟩,
    ⟨toFixed2_eq_roundAway (rawEconomyRate_nonneg h), _, toFixed2_mul_hundred _⟩⟩

def c8doc : MatchDoc := ⟨0, ⟨0⟩, "W", some 10, some 3, some 2, some (14/10), some 9, some 1⟩

/-- Witness for C8 at a one-record set with non-negative fields. -/
theorem metrics_rounded_two_decimals_witness :
    ((statsDocFor [c8doc]).battingAverage = roundHalfAwayFromZero2 (rawBattingAverage [c8doc]) ∧
      ∃ n : ℤ, (statsDocFor [c8doc]).battingAverage * 100 = (n : ℚ)) ∧
    ((statsDocFor [c8doc]).strikeRate = roundHalfAwayFromZero2 (rawStrikeRate [c8doc]) ∧
      ∃ n : ℤ, (statsDocFor [c8doc]).strikeRate * 100 = (n : ℚ)) ∧
    ((statsDocFor [c8doc]).bowlingAverage = roundHalfAwayFromZero2 (rawBowlingAverage [c8doc]) ∧
      ∃ n : ℤ, (statsDocFor [c8doc]).bowlingAverage * 100 = (n : ℚ)) ∧
    ((statsDocFor [c8doc]).economyRate = roundHalfAwayFromZero2 (rawEconomyRate [c8doc]) ∧
      ∃ n : ℤ, (statsDocFor [c8doc]).economyRate * 100 = (n : ℚ)) := by
  refine metrics_rounded_two_decimals [c8doc] ?_
  intro r hr
  simp only [List.mem_singleton] at hr
  subst hr
  norm_num [docNonneg, c8doc, orZero]

/-! ## Duplicate detection on the write paths (claims C3, C4, C7, C9) -/

theorem notExcluded_some_iff {e id : Nat} : notExcluded (some e) id = true ↔ id ≠ e := by
  simp [notExcluded]

theorem checkDuplicate_eq_true {docs : List MatchDoc} {date : JSDate} {opp : String}
    {excl : Option Nat} :
    checkDuplicate docs date opp excl = true ↔
      ∃ docSnap ∈ docs, notExcluded excl docSnap.id = true ∧ collidesWith docSnap date opp := by
  unfold checkDuplicate collidesWith sameDay
  simp [List.any_eq_true, Bool.and_eq_true, beq_iff_eq, and_assoc]

theorem checkDuplicate_none_iff {docs : List MatchDoc} {date : JSDate} {opp : String} :
    checkDuplicate docs date opp none = true ↔
      ∃ docSnap ∈ docs, collidesWith docSnap date opp := by
  simp [checkDuplicate_eq_true, notExcluded]

theorem checkDuplicate_some_iff {docs : List MatchDoc} {date : JSDate} {opp : String}
    {e : Nat} :
    checkDuplicate docs date opp (some e) = true ↔
      ∃ docSnap ∈ docs, docSnap.id ≠ e ∧ collidesWith docSnap date opp := by
  simp [checkDuplicate_eq_true, notExcluded_some_iff]

/-- Claim C3: in a fault-free run, an add — and an update whose date
(compared by `getTime()`) or opponent changed — fails with the duplicate
error carrying the opponent name and leaves the store unchanged exactly
when some existing record (excluding the updated id on update) matches
the candidate opponent case-insensitively on the same calendar day. -/
theorem duplicate_collision_gate (s : Store) (d : MatchData) :
    (((addMatch noFaults s d).1 = .error (.duplicate d.opponent) ∧ (addMatch noFaults s d).2 = s) ↔
       ∃ docSnap ∈ s.docs, collidesWith docSnap d.matchDate d.opponent) ∧
    (∀ (matchId : Nat) (ex : MatchDoc),
      s.docs.find? (fun r => r.id == matchId) = some ex →
      (d.matchDate.ms ≠ ex.matchDate.ms ∨ d.opponent ≠ ex.opponent) →
      (((updateMatch noFaults s matchId d).1 = .error (.duplicate d.opponent) ∧
         (updateMatch noFaults s matchId d).2 = s) ↔
        ∃ docSnap ∈ s.docs, docSnap.id ≠ matchId ∧ collidesWith docSnap d.matchDate d.opponent)) := by
  constructor
  · by_cases hc : checkDuplicate s.docs d.matchDate d.opponent none = true
    · have hres : addMatch noFaults s d = (.error (.duplicate d.opponent), s) := by
        simp [addMatch, checkDuplicateRun, noFaults, hc]
      rw [hres]
      simpa using checkDuplicate_none_iff.1 hc
    · have hres : addMatch noFaults s d =
          (.ok s.nextId, updatePlayerStats
            { docs := s.docs ++ [toDoc s.nextId d], stats := s.stats, nextId := s.nextId + 1 }) := by
        simp [addMatch, checkDuplicateRun, noFaults, hc, toDoc]
      rw [hres]
      constructor
      · intro hcontra
        exact absurd hcontra.1 (by simp)
      · intro hex
        exact absurd (checkDuplicate_none_iff.2 hex) hc
  · intro matchId ex hfind hch
    by_cases hc : checkDuplicate s.docs d.matchDate d.opponent (some matchId) = true
    · have hres : updateMatch noFaults s matchId d = (.error (.duplicate d.opponent), s) := by
        unfold updateMatch
        rw [hfind]
        simp [checkDuplicateRun, noFaults, hc, hch]
      rw [hres]
      simpa using checkDuplicate_some_iff.1 hc
    · have hres : (updateMatch noFaults s matchId d).1 = .ok () := by
        unfold updateMatch
        rw [hfind]
        simp [checkDuplicateRun, noFaults, hc]
      constructor
      · intro hcontra
        rw [hres] at hcontra
        exact absurd hcontra.1 (by simp)
      · intro hex
        exact absurd (checkDuplicate_some_iff.2 hex) hc

def c3docX : MatchDoc := ⟨0, ⟨100⟩, "Lions", some 50, some 40, some 0, some 0, some 0, some 1⟩

def c3docY : MatchDoc := ⟨1, ⟨86400000⟩, "Tigers", some 0, some 0, some 3, some 4, some 20, some 0⟩

def c3store : Store := ⟨[c3docX, c3docY], none, 2⟩

def c3data : MatchData := ⟨⟨5000⟩, "LIONS", some 7, some 8, none, none, none, none⟩

/-- Witness for C3 at a store holding a colliding record (`Lions`, same
day, different time and case) for both the add path and an update of the
other record. -/
theorem duplicate_collision_gate_witness :
    (((addMatch noFaults c3store c3data).1 = .error (.duplicate c3data.opponent) ∧
        (addMatch noFaults c3store c3data).2 = c3store) ↔
      ∃ docSnap ∈ c3store.docs, collidesWith docSnap c3data.matchDate c3data.opponent) ∧
    (((updateMatch noFaults c3store 1 c3data).1 = .error (.duplicate c3data.opponent) ∧
        (updateMatch noFaults c3store 1 c3data).2 = c3store) ↔
      ∃ docSnap ∈ c3store.docs, docSnap.id ≠ 1 ∧
        collidesWith docSnap c3data.matchDate c3data.opponent) :=
  ⟨(duplicate_collision_gate c3store c3data).1,
    (duplicate_collision_gate c3store c3data).2 1 c3docY rfl (Or.inr (by decide))⟩

def c4doc : MatchDoc := ⟨0, ⟨0⟩, "India", some 10, some 10, some 0, some 0, some 0, some 0⟩

def c4store : Store := ⟨[c4doc], none, 1⟩

def c4data : MatchData := ⟨⟨3600000⟩, "india", some 5, some 5, none, none, none, none⟩

/-- Counterexample to C4 as stated: when the store read inside the
duplicate check fails, `addMatch` succeeds (returning the new id) instead
of propagating the error — even though a genuine duplicate exists, as the
second conjunct shows.  The catch inside `checkDuplicate` logs the error
and returns `false`. -/
theorem dup_read_failure_swallowed_cex :
    (addMatch ⟨true, false⟩ c4store c4data).1 = .ok 1 ∧
    checkDuplicate c4store.docs c4data.matchDate c4data.opponent none = true := by
  constructor
  · rfl
  · decide

/-- Claim C4 (amended): on the write paths, a failure of the statistics
recomputation after a successful record write does propagate (for
add/update/delete the caller sees an error, never a silent success), but
a store failure during the duplicate-check read is caught inside
`checkDuplicate` and treated as "no duplicate", so the add proceeds and
succeeds instead of surfacing the failure. -/
theorem write_path_error_propagation (f : Faults) (s : Store) (d : MatchData) (matchId : Nat)
    (hf : f.statsFails = true) :
    ((addMatch f s d).1 = .error (.duplicate d.opponent) ∨
      (addMatch f s d).1 = .error .storeError) ∧
    ((updateMatch f s matchId d).1 = .error .notFound ∨
      (updateMatch f s matchId d).1 = .error (.duplicate d.opponent) ∨
      (updateMatch f s matchId d).1 = .error .storeError) ∧
    (deleteMatch f s matchId).1 = .error .storeError ∧
    (addMatch ⟨true, false⟩ s d).1 = .ok s.nextId := by
  refine ⟨?_, ?_, ?_, rfl⟩
  · unfold addMatch
    by_cases hc : checkDuplicateRun f.dupReadFails s.docs d.matchDate d.opponent none = true
    · rw [if_pos hc]
      exact Or.inl rfl
    · rw [if_neg hc]
      simp [hf]
  · unfold updateMatch
    cases hfind : s.docs.find? (fun r => r.id == matchId) with
    | none => exact Or.inl rfl
    | some ex =>
      by_cases hdc : (d.matchDate.ms ≠ ex.matchDate.ms ∨ d.opponent ≠ ex.opponent) ∧
          checkDuplicateRun f.dupReadFails s.docs d.matchDate d.opponent (some matchId) = true
      · simp [hdc]
      · simp [hdc, hf]
  · unfold deleteMatch
    simp [hf]

/-- Witness for C4 (amended) with the stats-recomputation fault raised. -/
theorem write_path_error_propagation_witness :
    ((addMatch ⟨false, true⟩ c4store c4data).1 = .error (.duplicate c4data.opponent) ∨
      (addMatch ⟨false, true⟩ c4store c4data).1 = .error .storeError) ∧
    ((updateMatch ⟨false, true⟩ c4store 0 c4data).1 = .error .notFound ∨
      (updateMatch ⟨false, true⟩ c4store 0 c4data).1 = .error (.duplicate c4data.opponent) ∨
      (updateMatch ⟨false, true⟩ c4store 0 c4data).1 = .error .storeError) ∧
    (deleteMatch ⟨false, true⟩ c4store 0).1 = .error .storeError ∧
    (addMatch ⟨true, false⟩ c4store c4data).1 = .ok c4store.nextId :=
  write_path_error_propagation ⟨false, true⟩ c4store c4data 0 rfl

/-- Modelled from the spec: the variant of the update path that always
re-runs the duplicate check with `excludeId` set to the updated record's
id, instead of skipping it when neither date nor opponent changed.  The
spec asserts this variant "must produce the same result as skipping". -/
def updateMatchRecheck (f : Faults) (s : Store) (matchId : Nat) (matchData : MatchData) :
    Except CricketError Unit × Store :=
  match s.docs.find? (fun r => r.id == matchId) with
  | none => (.error .notFound, s)
  | some _ =>
    if checkDuplicateRun f.dupReadFails s.docs matchData.matchDate matchData.opponent
        (some matchId) = true then
      (.error (.duplicate matchData.opponent), s)
    else
      let s1 : Store :=
        { s with docs := s.docs.map (fun r => if r.id = matchId then applyUpdate r matchData else r) }
      if f.statsFails then (.error .storeError, s1)
      else (.ok (), updatePlayerStats s1)

def c7docX : MatchDoc := ⟨0, ⟨0⟩, "india", some 1, some 1, some 0, some 0, some 0, some 0⟩

def c7docY : MatchDoc := ⟨1, ⟨0⟩, "India", some 2, some 2, some 0, some 0, some 0, some 0⟩

def c7store : Store := ⟨[c7docX, c7docY], none, 2⟩

def c7data : MatchData := ⟨⟨0⟩, "india", some 1, some 1, some 0, some 0, some 0, some 0⟩

/-- Counterexample to C7 as stated: in a store that already holds two
records colliding with each other (reachable, since a failed
duplicate-check read lets a duplicate through), updating record 0 with
its own unchanged date/opponent succeeds when the check is skipped, but
re-running the check with `excludeId = 0` reports a duplicate (against
record 1, not against record 0 itself) — the two outcomes differ. -/
theorem skip_vs_recheck_differ_cex :
    (updateMatch noFaults c7store 0 c7data).1 = .ok () ∧
    (updateMatchRecheck noFaults c7store 0 c7data).1 = .error (.duplicate "india") := by
  constructor
  · rfl
  · rfl

/-- Claim C7 (amended): if neither the date nor the opponent changed and
no other record collides with the candidate (which holds whenever the
store is duplicate-free), skipping the duplicate check and re-running it
with `excludeId` produce identical outcomes; in particular the re-run
check never raises a duplicate error against the record itself. -/
theorem update_skip_vs_recheck (s : Store) (matchId : Nat) (d : MatchData) (ex : MatchDoc)
    (hfind : s.docs.find? (fun r => r.id == matchId) = some ex)
    (hdate : d.matchDate.ms = ex.matchDate.ms)
    (hopp : d.opponent = ex.opponent)
    (hno : ∀ docSnap ∈ s.docs, docSnap.id ≠ matchId →
      ¬ collidesWith docSnap d.matchDate d.opponent) :
    updateMatch noFaults s matchId d = updateMatchRecheck noFaults s matchId d ∧
    (updateMatchRecheck noFaults s matchId d).1 ≠ .error (.duplicate d.opponent) := by
  have hcheck : ¬ checkDuplicateRun noFaults.dupReadFails s.docs d.matchDate d.opponent
      (some matchId) = true := by
    intro hc
    obtain ⟨docSnap, hmem, hne, hcol⟩ := checkDuplicate_some_iff.1 hc
    exact hno docSnap hmem hne hcol
  have hskip : ¬ ((d.matchDate.ms ≠ ex.matchDate.ms ∨ d.opponent ≠ ex.opponent) ∧
      checkDuplicateRun noFaults.dupReadFails s.docs d.matchDate d.opponent
        (some matchId) = true) := by
    intro hcontra
    exact hcontra.1.elim (fun hms => hms hdate) (fun ho => ho hopp)
  constructor
  · unfold updateMatch updateMatchRecheck
    rw [hfind]
    dsimp only
    rw [if_neg hskip, if_neg hcheck]
  · unfold updateMatchRecheck
    rw [hfind]
    dsimp only
    rw [if_neg hcheck]
    simp [noFaults]

def c7wdoc : MatchDoc := ⟨0, ⟨250000⟩, "Kiwis", some 4, some 9, none, some 2, some 11, none⟩

def c7wstore : Store := ⟨[c7wdoc], none, 1⟩

def c7wdata : MatchData := ⟨⟨250000⟩, "Kiwis", some 4, some 9, none, some 2, some 11, none⟩

/-- Witness for C7 (amended) at a duplicate-free one-record store whose
record is updated with its own unchanged date and opponent. -/
theorem update_skip_vs_recheck_witness :
    updateMatch noFaults c7wstore 0 c7wdata = updateMatchRecheck noFaults c7wstore 0 c7wdata ∧
    (updateMatchRecheck noFaults c7wstore 0 c7wdata).1 ≠ .error (.duplicate c7wdata.opponent) :=
  update_skip_vs_recheck c7wstore 0 c7wdata c7wdoc rfl rfl rfl (by decide)

/-- Counterexample to C9 as stated: deleting a non-existent id succeeds
(`deleteDoc` is a no-op for a missing document and `deleteMatch` performs
no existence check), rather than failing with the not-found error. -/
theorem delete_missing_id_no_error_cex :
    (deleteMatch noFaults ⟨[], none, 0⟩ 0).1 = .ok () ∧
    (deleteMatch noFaults ⟨[], none, 0⟩ 0).1 ≠ .error .notFound :=
  ⟨rfl, fun hcontra => Except.noConfusion hcontra⟩

/-- Claim C9 (amended): for an id no record carries, `updateMatch` fails
with the not-found error and leaves the store untouched, while
`deleteMatch` succeeds as a no-op on the record set (still recomputing
stats) and raises no error. -/
theorem missing_id_update_delete (s : Store) (matchId : Nat) (d : MatchData)
    (h : ∀ docSnap ∈ s.docs, docSnap.id ≠ matchId) :
    (updateMatch noFaults s matchId d).1 = .error .notFound ∧
    (updateMatch noFaults s matchId d).2 = s ∧
    (deleteMatch noFaults s matchId).1 = .ok () ∧
    ((deleteMatch noFaults s matchId).2).docs = s.docs := by
  have hfind : s.docs.find? (fun r => r.id == matchId) = none := by
    rw [List.find?_eq_none]
    intro docSnap hdoc
    simpa using h docSnap hdoc
  have hfilter : s.docs.filter (fun r => r.id != matchId) = s.docs := by
    rw [List.filter_eq_self]
    intro docSnap hdoc
    simpa using h docSnap hdoc
  refine ⟨?_, ?_, rfl, ?_⟩
  · unfold updateMatch
    rw [hfind]
  · unfold updateMatch
    rw [hfind]
  · unfold deleteMatch updatePlayerStats
    simp [hfilter, noFaults]

def c9doc : MatchDoc := ⟨0, ⟨0⟩, "Eagles", some 3, some 6, some 1, some 1, some 4, none⟩

def c9store : Store := ⟨[c9doc], none, 1⟩

def c9data : MatchData := ⟨⟨0⟩, "Eagles", some 3, some 6, some 1, some 1, some 4, none⟩

/-- Witness for C9 (amended) at a one-record store and the fresh id 5. -/
theorem missing_id_update_delete_witness :
    (updateMatch noFaults c9store 5 c9data).1 = .error .notFound ∧
    (updateMatch noFaults c9store 5 c9data).2 = c9store ∧
    (deleteMatch noFaults c9store 5).1 = .ok () ∧
    ((deleteMatch noFaults c9store 5).2).docs = c9store.docs :=
  missing_id_update_delete c9store 5 c9data (by decide)

end CricketTracker
